import Mathlib

/-
Verification of the vehicle checkout log application (src/app.py).

The development shallowly embeds the data pipeline of the application:
loading and normalizing the checkout table, the per-vehicle oil change
status computation, the user facing filter engine, and the UC program
export view.  Timestamps are modeled as integer minutes; a calendar
date d denotes minute d * 1440 (start of day).  Nullable spreadsheet
cells are modeled with Option; the pandas lenient parsers
(to_datetime and to_numeric with coercion of failures to null) are
modeled by fields that already carry the optional parse result, since
no property below depends on the textual parsing itself.  A float NaN
produced by arithmetic on a null value is modeled by none, with the
pandas comparison semantics (NaN compares false) made explicit.
-/

def minutesPerDay : Int := 1440

def OIL_CHANGE_INTERVAL : Int := 5000

def WARNING_THRESHOLD : Int := 4000

def OVERDUE_THRESHOLD : Int := 5000

/-- Python str.lower, character by character. -/
def pyLower (s : String) : String := String.mk (s.data.map Char.toLower)

def isWS (c : Char) : Bool := c.isWhitespace

/-- Python str.strip: drop whitespace from both ends. -/
def pyStrip (s : String) : String :=
  String.mk (((s.data.dropWhile isWS).reverse.dropWhile isWS).reverse)

/-- Does the pattern occur at the head of the list. -/
def leadMatch : List Char → List Char → Bool
  | [], _ => true
  | _ :: _, [] => false
  | p :: ps, c :: cs => (p == c) && leadMatch ps cs

/-- Does the pattern occur anywhere in the list (python in operator on str). -/
def subMatch (pat : List Char) : List Char → Bool
  | [] => leadMatch pat []
  | c :: cs => leadMatch pat (c :: cs) || subMatch pat cs

/-- The fixed allow list for the UC program flag (src/app.py line 36). -/
def UC_ALLOW : List String :=
  ["yes", "true", "uc program trip", "uc program trip?", "checked", "1", "x"]

/-- One raw row of the checkout feed after the lenient per-field coercions:
checkout_time is the pd.to_datetime result (none when missing or unparseable),
mileage is the pd.to_numeric result (none when missing or unparseable).  The
remaining cells are the raw nullable strings. -/
structure RawRow where
  checkout_time : Option Int
  vehicle : Option String
  first_name : Option String
  last_name : Option String
  mileage : Option Int
  destination : Option String
  expected_back : Option String
  email : Option String
  submission_id : Option String
  uc_program : Option String
deriving DecidableEq

/-- A normalized checkout row as produced by load_data (src/app.py lines 26-38). -/
structure CheckoutRow where
  checkout_time : Option Int
  vehicle : Option String
  first_name : Option String
  last_name : Option String
  mileage : Option Int
  destination : Option String
  expected_back : Option String
  email : Option String
  submission_id : Option String
  uc_program : String
  staff_name : String
  is_uc : Bool
deriving DecidableEq

/-- The derived-field computation of load_data, per row (src/app.py lines 31-36):
staff_name = (first_name.fillna() + space + last_name.fillna()).strip();
uc_program = uc_program.fillna().strip();
is_uc = uc_program.lower() isin UC_ALLOW. -/
def normalizeRow (r : RawRow) : CheckoutRow :=
  let ucp := pyStrip (r.uc_program.getD "")
  { checkout_time := r.checkout_time
    vehicle := r.vehicle
    first_name := r.first_name
    last_name := r.last_name
    mileage := r.mileage
    destination := r.destination
    expected_back := r.expected_back
    email := r.email
    submission_id := r.submission_id
    uc_program := ucp
    staff_name := pyStrip ((r.first_name.getD "") ++ " " ++ (r.last_name.getD ""))
    is_uc := UC_ALLOW.contains (pyLower ucp) }

/-- Comparison used for df.sort_values(checkout_time, ascending=False): later
timestamps first, null timestamps last (pandas na_position=last). -/
def checkoutDescLe (a b : CheckoutRow) : Bool :=
  match a.checkout_time, b.checkout_time with
  | some x, some y => decide (y ≤ x)
  | some _, none => true
  | none, some _ => false
  | none, none => true

def sortCheckoutDesc (l : List CheckoutRow) : List CheckoutRow :=
  l.mergeSort checkoutDescLe

/-- The checkout feed as fetched: its physical column count and its rows.
In the older 9 column format the uc_program cell is absent; the RawRow
field is then irrelevant because load_data never reaches it. -/
structure Feed where
  ncols : Nat
  rows : List RawRow

/-- load_data (src/app.py lines 22-41).  The whole body runs under a
try/except that returns an empty DataFrame on any exception.  Assigning the
fixed list of 10 column names raises a length mismatch error when the feed
does not have exactly 10 columns, so any such feed yields the empty table;
otherwise the per-row normalization runs and the table is sorted by
checkout_time descending. -/
def load_data (feed : Feed) : List CheckoutRow :=
  if feed.ncols = 10 then
    sortCheckoutDesc (feed.rows.map normalizeRow)
  else
    []

/-- One row of the maintenance feed after lenient coercions
(src/app.py lines 44-54). -/
structure MaintRow where
  vehicle : Option String
  date : Option Int
  mileage : Option Int
  service_type : Option String
deriving DecidableEq

/-- service_type.str.lower().str.contains(oil, na=False): a null service type
matches nothing. -/
def serviceMentionsOil (s : Option String) : Bool :=
  match s with
  | none => false
  | some t => subMatch "oil".data (pyLower t).data

/-- Row predicate of the vehicle_oil filter (src/app.py lines 59-62). -/
def oilRowMatch (vehicle : String) (r : MaintRow) : Bool :=
  (r.vehicle == some vehicle) && serviceMentionsOil r.service_type

/-- Mileage of vehicle_oil.sort_values(mileage, ascending=False).iloc[0]:
sorting with nulls last and taking the first row yields the maximum mileage
value present, or a null mileage when every row has a null mileage. -/
def maxMileage (rows : List MaintRow) : Option Int :=
  (rows.filterMap (fun r => r.mileage)).max?

/-- Pandas float subtraction: null (NaN) on either side is contagious. -/
def nanSub (a b : Option Int) : Option Int :=
  match a, b with
  | some x, some y => some (x - y)
  | _, _ => none

/-- Pandas float comparison: NaN >= k is false. -/
def nanGe (a : Option Int) (k : Int) : Bool :=
  match a with
  | none => false
  | some x => decide (k ≤ x)

/-- Python int() applied to a possibly-NaN float: int(NaN) raises ValueError. -/
def intOfNan (a : Option Int) : Except String Int :=
  match a with
  | none => Except.error "cannot convert float NaN to integer"
  | some x => Except.ok x

/-- Digits grouped in threes starting from the least significant end
(the input list is reversed, least significant first). -/
def group3 : List Char → List (List Char)
  | [] => []
  | [a] => [[a]]
  | [a, b] => [[a, b]]
  | a :: b :: c :: rest => [a, b, c] :: group3 rest

/-- Python format spec with a comma: thousands separators. -/
def natWithCommas (n : Nat) : String :=
  String.mk (List.intercalate [','] (((group3 (toString n).data.reverse).map List.reverse).reverse))

def intWithCommas (n : Int) : String :=
  if n < 0 then "-" ++ natWithCommas n.natAbs else natWithCommas n.natAbs

inductive OilStatusKind
  | unknown
  | overdue
  | warning
  | good
deriving DecidableEq

/-- The dictionary returned by get_oil_change_status. -/
structure OilStatus where
  status : OilStatusKind
  color : String
  message : String
  miles_since : Option Int
  last_mileage : Option Int
deriving DecidableEq

def unknownStatus : OilStatus :=
  { status := OilStatusKind.unknown
    color := "⚪"
    message := "No oil change on record"
    miles_since := none
    last_mileage := none }

/-- get_oil_change_status (src/app.py lines 56-101).  The result type records
that the python function can raise: the only fallible step is int() applied to
miles_since inside the message f-strings, which raises on NaN.  Each branch
evaluates int() only on its own path, as in the source. -/
def get_oil_change_status (vehicle : String) (current_mileage : Option Int)
    (maintenance_df : List MaintRow) : Except String OilStatus :=
  let vehicle_oil := maintenance_df.filter (oilRowMatch vehicle)
  if vehicle_oil.isEmpty || current_mileage.isNone then
    Except.ok unknownStatus
  else
    let last_mileage := maxMileage vehicle_oil
    let miles_since := nanSub current_mileage last_mileage
    if nanGe miles_since OVERDUE_THRESHOLD then
      (intOfNan miles_since).map (fun n =>
        { status := OilStatusKind.overdue
          color := "🔴"
          message := intWithCommas n ++ " miles since oil change - OVERDUE"
          miles_since := miles_since
          last_mileage := last_mileage })
    else if nanGe miles_since WARNING_THRESHOLD then
      (intOfNan miles_since).map (fun n =>
        { status := OilStatusKind.warning
          color := "🟡"
          message := intWithCommas n ++ " miles since oil change - Due soon"
          miles_since := miles_since
          last_mileage := last_mileage })
    else
      (intOfNan miles_since).map (fun n =>
        { status := OilStatusKind.good
          color := "🟢"
          message := intWithCommas n ++ " miles since oil change"
          miles_since := miles_since
          last_mileage := last_mileage })

/-- The three options of the time period selector. -/
inductive TimeWindow
  | last7
  | last30
  | allTime
deriving DecidableEq

/-- The three options of the UC program selector. -/
inductive UCChoice
  | allTrips
  | ucOnly
  | nonUCOnly
deriving DecidableEq

/-- Vehicle predicate: All is unconstrained, otherwise pandas equality of the
nullable vehicle cell with the chosen value (null equals nothing). -/
def vehicleP (vf : Option String) (r : CheckoutRow) : Bool :=
  match vf with
  | none => true
  | some v => r.vehicle == some v

def staffP (sf : Option String) (r : CheckoutRow) : Bool :=
  match sf with
  | none => true
  | some s => r.staff_name == s

/-- Time window predicate: checkout_time >= now - 7 (or 30) days; a null
timestamp (NaT) compares false. -/
def timeP (w : TimeWindow) (now : Int) (r : CheckoutRow) : Bool :=
  match w with
  | TimeWindow.allTime => true
  | TimeWindow.last7 =>
      match r.checkout_time with
      | none => false
      | some t => decide (now - 7 * minutesPerDay ≤ t)
  | TimeWindow.last30 =>
      match r.checkout_time with
      | none => false
      | some t => decide (now - 30 * minutesPerDay ≤ t)

def ucP (c : UCChoice) (r : CheckoutRow) : Bool :=
  match c with
  | UCChoice.allTrips => true
  | UCChoice.ucOnly => r.is_uc
  | UCChoice.nonUCOnly => !r.is_uc

/-- The filter pipeline of src/app.py lines 198-216, applied in the order of
the source: vehicle, then staff, then time window, then UC flag.  Each
unconstrained selector applies no filter at all, as in the source. -/
def filtered_df (df : List CheckoutRow) (vf sf : Option String) (w : TimeWindow)
    (uf : UCChoice) (now : Int) : List CheckoutRow :=
  let f1 :=
    match vf with
    | none => df
    | some v => df.filter (fun r => r.vehicle == some v)
  let f2 :=
    match sf with
    | none => f1
    | some s => f1.filter (fun r => r.staff_name == s)
  let f3 :=
    match w with
    | TimeWindow.allTime => f2
    | TimeWindow.last7 =>
        f2.filter (fun r =>
          match r.checkout_time with
          | none => false
          | some t => decide (now - 7 * minutesPerDay ≤ t))
    | TimeWindow.last30 =>
        f2.filter (fun r =>
          match r.checkout_time with
          | none => false
          | some t => decide (now - 30 * minutesPerDay ≤ t))
  match uf with
  | UCChoice.allTrips => f3
  | UCChoice.ucOnly => f3.filter (fun r => r.is_uc)
  | UCChoice.nonUCOnly => f3.filter (fun r => !r.is_uc)

/-- The same predicates applied in the reverse order: UC flag, then time
window, then staff, then vehicle. -/
def filtered_df_alt (df : List CheckoutRow) (vf sf : Option String) (w : TimeWindow)
    (uf : UCChoice) (now : Int) : List CheckoutRow :=
  let f1 :=
    match uf with
    | UCChoice.allTrips => df
    | UCChoice.ucOnly => df.filter (fun r => r.is_uc)
    | UCChoice.nonUCOnly => df.filter (fun r => !r.is_uc)
  let f2 :=
    match w with
    | TimeWindow.allTime => f1
    | TimeWindow.last7 =>
        f1.filter (fun r =>
          match r.checkout_time with
          | none => false
          | some t => decide (now - 7 * minutesPerDay ≤ t))
    | TimeWindow.last30 =>
        f1.filter (fun r =>
          match r.checkout_time with
          | none => false
          | some t => decide (now - 30 * minutesPerDay ≤ t))
  let f3 :=
    match sf with
    | none => f2
    | some s => f2.filter (fun r => r.staff_name == s)
  match vf with
  | none => f3
  | some v => f3.filter (fun r => r.vehicle == some v)

/-- Start of calendar date d in minutes; pd.to_datetime of a plain date. -/
def startOfDay (d : Int) : Int := d * minutesPerDay

/-- The UC program export view (src/app.py lines 235-247): select rows with
is_uc true, then keep those with
to_datetime(start) <= checkout_time <= to_datetime(end) + timedelta(days=1).
A null timestamp compares false on both bounds. -/
def uc_trips_export (df : List CheckoutRow) (export_start export_end : Int) :
    List CheckoutRow :=
  let uc_trips := df.filter (fun r => r.is_uc)
  uc_trips.filter (fun r =>
    match r.checkout_time with
    | none => false
    | some t =>
        decide (startOfDay export_start ≤ t) &&
        decide (t ≤ startOfDay export_end + minutesPerDay))

/-- The inclusion condition exactly as the specification words it: the
checkout time lies between the start date at start of day and the end date at
end of day, both inclusive.  At minute granularity the end of day of date e is
the last minute before start of day of e + 1. -/
def specExportInRange (s e t : Int) : Bool :=
  decide (startOfDay s ≤ t) && decide (t ≤ startOfDay (e + 1) - 1)

/-- The record built by the classified branches of get_oil_change_status when
the current mileage is c and the selected last oil change mileage is l. -/
def okStatusOf (c l : Int) : OilStatus :=
  if OVERDUE_THRESHOLD ≤ c - l then
    { status := OilStatusKind.overdue
      color := "🔴"
      message := intWithCommas (c - l) ++ " miles since oil change - OVERDUE"
      miles_since := some (c - l)
      last_mileage := some l }
  else if WARNING_THRESHOLD ≤ c - l then
    { status := OilStatusKind.warning
      color := "🟡"
      message := intWithCommas (c - l) ++ " miles since oil change - Due soon"
      miles_since := some (c - l)
      last_mileage := some l }
  else
    { status := OilStatusKind.good
      color := "🟢"
      message := intWithCommas (c - l) ++ " miles since oil change"
      miles_since := some (c - l)
      last_mileage := some l }

/-- A concrete UC program trip row stamped at minute t, for evaluations. -/
def exportRowAt (t : Int) : CheckoutRow :=
  { checkout_time := some t
    vehicle := some "Van-1"
    first_name := some "A"
    last_name := some "B"
    mileage := some 100
    destination := some "Town"
    expected_back := none
    email := none
    submission_id := some "s1"
    uc_program := "yes"
    staff_name := "A B"
    is_uc := true }

/-- A concrete checkout row with a null (unparseable) timestamp. -/
def nullTimeRow : CheckoutRow :=
  { checkout_time := none
    vehicle := some "Van-1"
    first_name := none
    last_name := none
    mileage := none
    destination := none
    expected_back := none
    email := none
    submission_id := none
    uc_program := ""
    staff_name := ""
    is_uc := false }

/-- A concrete raw checkout row, for the nine column feed evaluation. -/
def nineColRaw : RawRow :=
  { checkout_time := some 0
    vehicle := some "Van-1"
    first_name := some "A"
    last_name := some "B"
    mileage := some 100
    destination := none
    expected_back := none
    email := none
    submission_id := some "s1"
    uc_program := none }

/-- A concrete maintenance row: an oil change with a null mileage cell. -/
def oilRowNullMileage : MaintRow :=
  { vehicle := some "Van-1"
    date := none
    mileage := none
    service_type := some "Oil Change" }

/-- A concrete maintenance row: an oil change at mileage m. -/
def oilRowAt (m : Int) : MaintRow :=
  { vehicle := some "Van-1"
    date := none
    mileage := some m
    service_type := some "Oil Change" }

/-- A concrete raw row whose only populated cell is the UC program flag. -/
def rawWithFlag (f : Option String) : RawRow :=
  { checkout_time := none
    vehicle := none
    first_name := none
    last_name := none
    mileage := none
    destination := none
    expected_back := none
    email := none
    submission_id := none
    uc_program := f }

/-- The sequential filter pipeline computes the filter by the conjunction of
the four selector predicates. -/
theorem filtered_df_eq_conj (df : List CheckoutRow) (vf sf : Option String)
    (w : TimeWindow) (uf : UCChoice) (now : Int) :
    filtered_df df vf sf w uf now =
      df.filter (fun r => vehicleP vf r && staffP sf r && timeP w now r && ucP uf r) := by
  unfold filtered_df
  cases vf <;> cases sf <;> cases w <;> cases uf <;>
    simp only [vehicleP, staffP, timeP, ucP, List.filter_filter, Bool.true_and,
      Bool.and_true] <;>
    solve
      | rfl
      | simp [List.filter_true]
      | (refine List.filter_congr ?_
         intro x hx
         cases hc : x.checkout_time <;>
           simp [Bool.and_comm, Bool.and_left_comm, Bool.and_assoc])

/-- The reverse-order pipeline computes the same conjunction filter. -/
theorem filtered_df_alt_eq_conj (df : List CheckoutRow) (vf sf : Option String)
    (w : TimeWindow) (uf : UCChoice) (now : Int) :
    filtered_df_alt df vf sf w uf now =
      df.filter (fun r => vehicleP vf r && staffP sf r && timeP w now r && ucP uf r) := by
  unfold filtered_df_alt
  cases vf <;> cases sf <;> cases w <;> cases uf <;>
    simp only [vehicleP, staffP, timeP, ucP, List.filter_filter, Bool.true_and,
      Bool.and_true] <;>
    solve
      | rfl
      | simp [List.filter_true]
      | (refine List.filter_congr ?_
         intro x hx
         cases hc : x.checkout_time <;>
           simp [Bool.and_comm, Bool.and_left_comm, Bool.and_assoc])

/-- When there is no matching oil row or the current mileage is null, the
status computation returns the unknown record. -/
theorem gocs_unknown (v : String) (cm : Option Int) (mdf : List MaintRow)
    (h : (mdf.filter (oilRowMatch v)).isEmpty = true \/ cm = none) :
    get_oil_change_status v cm mdf = Except.ok unknownStatus := by
  unfold get_oil_change_status
  rcases h with h | h
  case inl => simp [h]
  case inr => simp [h]

/-- When a matching row exists, the current mileage is present and the maximal
mileage among the matching rows is present, the computation succeeds with the
record built from current mileage and that maximum. -/
theorem gocs_ok (v : String) (c l : Int) (mdf : List MaintRow)
    (hne : (mdf.filter (oilRowMatch v)).isEmpty = false)
    (hmax : maxMileage (mdf.filter (oilRowMatch v)) = some l) :
    get_oil_change_status v (some c) mdf = Except.ok (okStatusOf c l) := by
  unfold get_oil_change_status
  simp only [hne, hmax, Option.isNone_some, Bool.or_false, Bool.false_eq_true,
    if_false, nanSub, nanGe, intOfNan, Except.map, okStatusOf]
  by_cases h5 : OVERDUE_THRESHOLD <= c - l
  case pos => simp [h5]
  case neg =>
    by_cases h4 : WARNING_THRESHOLD <= c - l
    case pos => simp [h4, h5]
    case neg => simp [h4, h5]

/-- When a matching row exists and the current mileage is present but every
matching row has a null mileage, the computation raises: int() of NaN. -/
theorem gocs_error (v : String) (c : Int) (mdf : List MaintRow)
    (hne : (mdf.filter (oilRowMatch v)).isEmpty = false)
    (hmax : maxMileage (mdf.filter (oilRowMatch v)) = none) :
    get_oil_change_status v (some c) mdf =
      Except.error "cannot convert float NaN to integer" := by
  unfold get_oil_change_status
  simp [hne, hmax, nanSub, nanGe, intOfNan, Except.map]

/-- Inversion: every successful result is either the unknown record from the
degenerate case, or the classified record built from the present current
mileage and the maximal present mileage of the matching rows. -/
theorem gocs_cases (v : String) (cm : Option Int) (mdf : List MaintRow)
    (s : OilStatus) (h : get_oil_change_status v cm mdf = Except.ok s) :
    (((mdf.filter (oilRowMatch v)).isEmpty = true \/ cm = none) /\ s = unknownStatus) \/
    (∃ c l, cm = some c /\ (mdf.filter (oilRowMatch v)).isEmpty = false /\
      maxMileage (mdf.filter (oilRowMatch v)) = some l /\ s = okStatusOf c l) := by
  by_cases hu : ((mdf.filter (oilRowMatch v)).isEmpty = true \/ cm = none)
  case pos =>
    left
    refine ⟨hu, ?_⟩
    rw [gocs_unknown v cm mdf hu] at h
    injection h with h
    exact h.symm
  case neg =>
    right
    push_neg at hu
    obtain ⟨hne, hcm⟩ := hu
    have hne2 : (mdf.filter (oilRowMatch v)).isEmpty = false := by
      cases hb : (mdf.filter (oilRowMatch v)).isEmpty
      case false => rfl
      case true => exact absurd hb hne
    obtain ⟨c, hc⟩ : ∃ c, cm = some c := by
      cases cm
      case none => exact absurd rfl hcm
      case some c => exact Exists.intro c rfl
    subst hc
    cases hm : maxMileage (mdf.filter (oilRowMatch v))
    case none =>
      rw [gocs_error v c mdf hne2 hm] at h
      cases h
    case some l =>
      rw [gocs_ok v c l mdf hne2 hm] at h
      injection h with h
      exact ⟨c, l, rfl, hne2, rfl, h.symm⟩

/-- C4: whenever the oil change status computation returns a record, its
status is unknown exactly when there is no matching oil row or the current
mileage is null, and otherwise the status is classified from miles_since by
the fixed thresholds: overdue iff miles_since >= 5000, warning iff
4000 <= miles_since < 5000, good iff miles_since < 4000. -/
theorem c4_oil_classification (v : String) (cm : Option Int) (mdf : List MaintRow)
    (s : OilStatus) (h : get_oil_change_status v cm mdf = Except.ok s) :
    ((s.status = OilStatusKind.unknown) ↔
      ((mdf.filter (oilRowMatch v)).isEmpty = true ∨ cm = none)) ∧
    (∀ ms : Int, s.miles_since = some ms →
      ((s.status = OilStatusKind.overdue ↔ 5000 ≤ ms) ∧
       (s.status = OilStatusKind.warning ↔ (4000 ≤ ms ∧ ms < 5000)) ∧
       (s.status = OilStatusKind.good ↔ ms < 4000))) := by
  rcases gocs_cases v cm mdf s h with ⟨hcond, rfl⟩ | ⟨c, l, rfl, hne, hm, rfl⟩
  · constructor
    · exact ⟨fun _ => hcond, fun _ => rfl⟩
    · intro ms hms
      simp [unknownStatus] at hms
  · have hms : (okStatusOf c l).miles_since = some (c - l) := by
      unfold okStatusOf
      split_ifs <;> rfl
    constructor
    · constructor
      · intro hs
        exfalso
        unfold okStatusOf at hs
        split_ifs at hs
      · intro hcond
        rcases hcond with hc | hc
        · rw [hne] at hc
          exact absurd hc (by decide)
        · exact Option.noConfusion hc
    · intro ms hms2
      rw [hms] at hms2
      injection hms2 with hms2
      subst hms2
      unfold okStatusOf
      split_ifs with h5 h4
      · simp only [OVERDUE_THRESHOLD] at h5
        refine ⟨?_, ?_, ?_⟩ <;> simp <;> omega
      · simp only [OVERDUE_THRESHOLD] at h5
        simp only [WARNING_THRESHOLD] at h4
        refine ⟨?_, ?_, ?_⟩ <;> simp <;> omega
      · simp only [OVERDUE_THRESHOLD] at h5
        simp only [WARNING_THRESHOLD] at h4
        refine ⟨?_, ?_, ?_⟩ <;> simp <;> omega

/-- Witness for C4 at the threshold inputs: miles_since 3999 good, 4000 and
4999 warning, 5000 overdue. -/
theorem c4_oil_classification_witness :
    (okStatusOf 13999 10000).status = OilStatusKind.good ∧
    (okStatusOf 14000 10000).status = OilStatusKind.warning ∧
    (okStatusOf 14999 10000).status = OilStatusKind.warning ∧
    (okStatusOf 15000 10000).status = OilStatusKind.overdue := by
  refine ⟨?_, ?_, ?_, ?_⟩
  · exact ((c4_oil_classification "Van-1" (some 13999) [oilRowAt 10000]
      (okStatusOf 13999 10000) (by rfl)).2 3999 (by rfl)).2.2.mpr (by decide)
  · exact ((c4_oil_classification "Van-1" (some 14000) [oilRowAt 10000]
      (okStatusOf 14000 10000) (by rfl)).2 4000 (by rfl)).2.1.mpr (by decide)
  · exact ((c4_oil_classification "Van-1" (some 14999) [oilRowAt 10000]
      (okStatusOf 14999 10000) (by rfl)).2 4999 (by rfl)).2.1.mpr (by decide)
  · exact ((c4_oil_classification "Van-1" (some 15000) [oilRowAt 10000]
      (okStatusOf 15000 10000) (by rfl)).2 5000 (by rfl)).1.mpr (by decide)

/-- C5: with at least one matching oil row and a present current mileage,
whenever the maximal mileage value among the matching rows is present, the
computation succeeds, the reference event is a matching row carrying that
maximal mileage (selection by odometer reading), and miles_since is exactly
current mileage minus that maximum, with no clamping. -/
theorem c5_reference_event (v : String) (c l : Int) (mdf : List MaintRow)
    (hne : (mdf.filter (oilRowMatch v)).isEmpty = false)
    (hmax : maxMileage (mdf.filter (oilRowMatch v)) = some l) :
    ∃ s, get_oil_change_status v (some c) mdf = Except.ok s ∧
      s.last_mileage = some l ∧ s.miles_since = some (c - l) ∧
      (∃ r, r ∈ mdf.filter (oilRowMatch v) ∧ r.mileage = some l) ∧
      (∀ r, r ∈ mdf.filter (oilRowMatch v) → ∀ m : Int, r.mileage = some m → m ≤ l) := by
  refine ⟨okStatusOf c l, gocs_ok v c l mdf hne hmax, ?_, ?_, ?_, ?_⟩
  · unfold okStatusOf
    split_ifs <;> rfl
  · unfold okStatusOf
    split_ifs <;> rfl
  · unfold maxMileage at hmax
    have hmem : l ∈ (mdf.filter (oilRowMatch v)).filterMap (fun r => r.mileage) :=
      List.max?_mem (fun a b => max_choice a b) hmax
    rw [List.mem_filterMap] at hmem
    obtain ⟨r, hr, hrm⟩ := hmem
    exact ⟨r, hr, hrm⟩
  · intro r hr m hm
    unfold maxMileage at hmax
    have hall := (List.max?_le_iff (fun a b c0 => max_le_iff) hmax).mp (le_refl l)
    exact hall m (List.mem_filterMap.mpr ⟨r, hr, hm⟩)

/-- Witness for C5: current mileage below the reference mileage gives a
negative, unclamped miles_since. -/
theorem c5_reference_event_witness :
    ∃ s, get_oil_change_status "Van-1" (some 15000) [oilRowAt 20000] = Except.ok s ∧
      s.miles_since = some (-5000) := by
  obtain ⟨s, h1, _h2, h3, _⟩ :=
    c5_reference_event "Van-1" 15000 20000 [oilRowAt 20000] (by rfl) (by rfl)
  refine ⟨s, h1, ?_⟩
  rw [h3]
  norm_num

/-- C3: at a vehicle whose matching oil rows all carry a null mileage and
whose current mileage is present, the status computation raises (python
int() applied to NaN inside the message format) instead of degrading to the
unknown status; the second conjunct shows the input is not the degenerate
case, since a matching row does exist. -/
theorem c3_all_null_mileage_raises :
    get_oil_change_status "Van-1" (some 14200) [oilRowNullMileage] =
      Except.error "cannot convert float NaN to integer" ∧
    ([oilRowNullMileage].filter (oilRowMatch "Van-1")).isEmpty = false :=
  ⟨rfl, rfl⟩

/-- C1 counterexample: with start date 0 and end date 30 (2024-01-01 and
2024-01-31 with the epoch at 2024-01-01), the program trip row stamped at
minute 44640, which is 2024-02-01 00:00, is included by the export view even
though the specification condition (end of day of the end date, inclusive)
excludes it. -/
theorem c1_export_counterexample :
    exportRowAt 44640 ∈ uc_trips_export [exportRowAt 44640] 0 30 ∧
    specExportInRange 0 30 44640 = false := by
  refine ⟨?_, ?_⟩ <;> decide

/-- C1 amended: a row is in the export view iff it is a program trip row of
the table and its checkout time t satisfies
startOfDay start <= t <= startOfDay end + one day; so the range is inclusive
up to and including midnight at the start of the day after the end date. -/
theorem c1_export_range (df : List CheckoutRow) (s e : Int) (r : CheckoutRow) :
    r ∈ uc_trips_export df s e ↔
      r ∈ df ∧ r.is_uc = true ∧
      ∃ t : Int, r.checkout_time = some t ∧
        startOfDay s ≤ t ∧ t ≤ startOfDay e + minutesPerDay := by
  unfold uc_trips_export
  simp only [List.mem_filter]
  constructor
  · rintro ⟨⟨hdf, huc⟩, hcond⟩
    refine ⟨hdf, huc, ?_⟩
    cases hct : r.checkout_time
    case none =>
      rw [hct] at hcond
      simp at hcond
    case some t =>
      rw [hct] at hcond
      simp at hcond
      exact ⟨t, rfl, hcond.1, hcond.2⟩
  · rintro ⟨hdf, huc, t, hct, h1, h2⟩
    refine ⟨⟨hdf, huc⟩, ?_⟩
    rw [hct]
    simp [h1, h2]

/-- C2 counterexample: a nine column feed with one row loads as the empty
table, although the claimed result (the normalized table with the row kept
and classified is_uc false) is a one row table. -/
theorem c2_nine_column_counterexample :
    load_data { ncols := 9, rows := [nineColRaw] } = [] ∧
    [nineColRaw].map normalizeRow ≠ [] ∧
    (normalizeRow nineColRaw).is_uc = false := by
  refine ⟨rfl, ?_, rfl⟩
  decide

/-- C2 amended: a nine column feed does not raise to the caller, but the
column count mismatch takes the recovery path of the loader and yields the
empty table; the rows are not retained. -/
theorem c2_nine_column_yields_empty (rows : List RawRow) :
    load_data { ncols := 9, rows := rows } = [] := rfl

/-- C6: is_uc is true iff the stripped then lowercased flag value equals one
of the allow list strings; a null flag yields false. -/
theorem c6_program_flag (r : RawRow) :
    ((normalizeRow r).is_uc = true ↔
      pyLower (pyStrip (r.uc_program.getD "")) ∈ UC_ALLOW) ∧
    (r.uc_program = none → (normalizeRow r).is_uc = false) := by
  constructor
  · show UC_ALLOW.contains (pyLower (pyStrip (r.uc_program.getD ""))) = true ↔ _
    simp
  · intro h
    show UC_ALLOW.contains (pyLower (pyStrip (r.uc_program.getD ""))) = false
    rw [h]
    decide

/-- Witness for C6: an allow listed value with surrounding blanks and mixed
case classifies true; a null flag classifies false. -/
theorem c6_program_flag_witness :
    (normalizeRow (rawWithFlag (some " Yes "))).is_uc = true ∧
    (normalizeRow (rawWithFlag none)).is_uc = false :=
  ⟨(c6_program_flag (rawWithFlag (some " Yes "))).1.mpr (by decide),
   (c6_program_flag (rawWithFlag none)).2 rfl⟩

/-- C7: staff_name is the stripped concatenation of first name, one blank and
last name with null parts as empty strings, and is the empty string when both
parts are null. -/
theorem c7_staff_name (r : RawRow) :
    (normalizeRow r).staff_name =
      pyStrip ((r.first_name.getD "") ++ " " ++ (r.last_name.getD "")) ∧
    (r.first_name = none → r.last_name = none → (normalizeRow r).staff_name = "") := by
  refine ⟨rfl, ?_⟩
  intro h1 h2
  show pyStrip ((r.first_name.getD "") ++ " " ++ (r.last_name.getD "")) = ""
  rw [h1, h2]
  decide

/-- Witness for C7: both name parts null gives the empty staff name. -/
theorem c7_staff_name_witness : (normalizeRow (rawWithFlag none)).staff_name = "" :=
  (c7_staff_name (rawWithFlag none)).2 rfl rfl

/-- C8: the filter pipeline returns the subset satisfying the conjunction of
the four selector predicates, and applying the predicates in the reverse
order returns the same result. -/
theorem c8_filters_commute (df : List CheckoutRow) (vf sf : Option String)
    (w : TimeWindow) (uf : UCChoice) (now : Int) :
    filtered_df df vf sf w uf now =
      df.filter (fun r => vehicleP vf r && staffP sf r && timeP w now r && ucP uf r) ∧
    filtered_df_alt df vf sf w uf now = filtered_df df vf sf w uf now := by
  refine ⟨filtered_df_eq_conj df vf sf w uf now, ?_⟩
  rw [filtered_df_alt_eq_conj, filtered_df_eq_conj]

/-- C10: a row with a null checkout time is excluded by the last 7 days and
last 30 days windows, while the fully unconstrained view retains every row
of the table. -/
theorem c10_null_time_excluded (df : List CheckoutRow) (vf sf : Option String)
    (uf : UCChoice) (now : Int) (r : CheckoutRow) (h : r.checkout_time = none) :
    r ∉ filtered_df df vf sf TimeWindow.last7 uf now ∧
    r ∉ filtered_df df vf sf TimeWindow.last30 uf now ∧
    (r ∈ df → r ∈ filtered_df df none none TimeWindow.allTime UCChoice.allTrips now) := by
  refine ⟨?_, ?_, ?_⟩
  · rw [filtered_df_eq_conj]
    intro hmem
    rw [List.mem_filter] at hmem
    have hp := hmem.2
    simp [timeP, h] at hp
  · rw [filtered_df_eq_conj]
    intro hmem
    rw [List.mem_filter] at hmem
    have hp := hmem.2
    simp [timeP, h] at hp
  · intro hmem
    rw [filtered_df_eq_conj]
    rw [List.mem_filter]
    exact ⟨hmem, by simp [vehicleP, staffP, timeP, ucP]⟩

/-- Witness for C10: a concrete null timestamp row is dropped by the 7 day
window and kept by the unconstrained view. -/
theorem c10_null_time_excluded_witness :
    nullTimeRow ∉ filtered_df [nullTimeRow] none none TimeWindow.last7 UCChoice.allTrips 0 ∧
    nullTimeRow ∈ filtered_df [nullTimeRow] none none TimeWindow.allTime UCChoice.allTrips 0 := by
  have h := c10_null_time_excluded [nullTimeRow] none none UCChoice.allTrips 0 nullTimeRow rfl
  exact ⟨h.1, h.2.2 (by simp)⟩
